import Mathlib

/-!
Shallow embedding of the tool-dispatch layer of the real-estate content-feed
MCP server (`src/index.ts`).  The server exposes ten tools; each invocation is
translated into at most one HTTP call against the remote content-feed API and
the JSON result (or a uniform error envelope) is serialized back to the
caller.  We model JSON values, HTTP requests, the axios outcome, and the
`CallToolRequestSchema` handler (`invoke`) case by case from the source.
-/

namespace RealEstateFeed

/-- JSON values, as produced by `JSON.parse` / consumed by `JSON.stringify`.
Numbers are modelled as integers (all numbers occurring in this program's
request bodies are integers). -/
inductive Json where
  | null : Json
  | bool (b : Bool) : Json
  | num (n : Int) : Json
  | str (s : String) : Json
  | arr (elems : List Json) : Json
  | obj (fields : List (String × Json)) : Json

/-- JavaScript truthiness of a JSON value (`0`, `""`, `null`, `false` are
falsy; arrays and objects are always truthy). -/
def jsTruthy : Json → Bool
  | Json.null => false
  | Json.bool b => b
  | Json.num n => n != 0
  | Json.str s => s != ""
  | Json.arr _ => true
  | Json.obj _ => true

/-- JavaScript property access `j.k` on a JSON value: `some v` when `j` is an
object with field `k` (objects parsed from JSON have distinct keys), `none`
(i.e. `undefined`) otherwise. -/
def jsonLookup (j : Json) (k : String) : Option Json :=
  match j with
  | Json.obj fields => (fields.find? (fun p => p.1 == k)).map (fun p => p.2)
  | _ => none

/-- A key/value pair that `JSON.stringify` drops when the value is
`undefined` (modelled as `none`). -/
def optField (k : String) (v : Option Json) : List (String × Json) :=
  match v with
  | some j => [(k, j)]
  | none => []

/-- JavaScript `x || d` for an integer-valued argument that may be absent:
`undefined` and `0` are falsy and give the default. -/
def jsOrInt (v : Option Int) (d : Int) : Int :=
  match v with
  | none => d
  | some n => if n = 0 then d else n

/-- Model of JavaScript `parseInt(s)` (default radix 10 on decimal input):
skips leading whitespace, accepts an optional sign, reads the longest digit
prefix; `none` models `NaN`. -/
def parseIntJs (s : String) : Option Int :=
  let cs := s.toList.dropWhile (fun c => c == ' ' || c == '\t' || c == '\n' || c == '\r')
  let signAndRest : Bool × List Char :=
    match cs with
    | '-' :: rest => (true, rest)
    | '+' :: rest => (false, rest)
    | _ => (false, cs)
  let digits := signAndRest.2.takeWhile Char.isDigit
  if digits.isEmpty then none
  else
    let n : Nat := digits.foldl (fun acc c => acc * 10 + (c.toNat - 48)) 0
    some (if signAndRest.1 then -(n : Int) else (n : Int))

/-- Static configuration (`dotenv`-loaded at process start; defaults from the
source). `API_KEY`/`SECRET_KEY` only feed the HTTP client's headers, which
are outside the dispatch layer modelled here. -/
structure Config where
  API_BASE_URL : String := "https://feeds.parsym.com"
  FEED_ID : String := "292"

/-- The `feed_id: parseInt(FEED_ID)` value as it appears in a JSON body
(`JSON.stringify(NaN)` is `null`). -/
def feedIdJson (cfg : Config) : Json :=
  match parseIntJs cfg.FEED_ID with
  | some n => Json.num n
  | none => Json.null

/-- One entry of an `entity_details` filter list, per the declared input
schema (`entity_type`, `entity_value`, both strings). -/
structure EntityDetail where
  entity_type : String
  entity_value : String

def EntityDetail.toJson (e : EntityDetail) : Json :=
  Json.obj [("entity_type", Json.str e.entity_type), ("entity_value", Json.str e.entity_value)]

/-- The argument object of a tool call (`request.params.arguments`), typed by
the union of the declared input schemas; `none` models an absent
(`undefined`) argument. -/
structure ToolArgs where
  entity_type : Option String := none
  report_type : Option String := none
  partial_name : Option String := none
  city_name : Option String := none
  start_date : Option String := none
  end_date : Option String := none
  published_date_from : Option String := none
  published_date_to : Option String := none
  page_num : Option Int := none
  page_size : Option Int := none
  entity_details : Option (List EntityDetail) := none

inductive HttpMethod where
  | get : HttpMethod
  | post : HttpMethod

/-- An outbound HTTP call: method, path (relative to the configured base
URL), axios `params` (query parameters; `undefined` entries dropped), and
JSON body for POST. -/
structure HttpRequest where
  method : HttpMethod
  path : String
  params : List (String × String)
  body : Option Json

/-- Outcome of an awaited axios call: resolved with `response.data`, or
rejected with an error carrying `error.message` and `error.response?.data`
(`none` when no response body is available, e.g. a network failure). -/
inductive AxiosOutcome where
  | success (data : Json) : AxiosOutcome
  | failure (message : String) (responseData : Option Json) : AxiosOutcome

/-- Result of one invocation: the trace of outbound HTTP calls together with
the JSON value serialized into the returned text content; `runtimeError`
marks executions where the JavaScript would throw a runtime `TypeError`
(e.g. `.filter` on a non-array), whose message text comes from the JS
runtime and is not modelled. -/
inductive ToolOutcome where
  | result (calls : List HttpRequest) (content : Json) : ToolOutcome
  | runtimeError (calls : List HttpRequest) : ToolOutcome

def ToolOutcome.calls : ToolOutcome → List HttpRequest
  | ToolOutcome.result cs _ => cs
  | ToolOutcome.runtimeError cs => cs

def ToolOutcome.content? : ToolOutcome → Option Json
  | ToolOutcome.result _ c => some c
  | ToolOutcome.runtimeError _ => none

/-- JavaScript `error.message || "Unknown error occurred"`. -/
def fallbackMessage (errMsg : String) : Json :=
  if errMsg = "" then Json.str "Unknown error occurred" else Json.str errMsg

/-- JavaScript `error.response?.data?.message || error.message || "Unknown error occurred"`. -/
def errorMessageJson (errMsg : String) (respData : Option Json) : Json :=
  match respData.bind (fun d => jsonLookup d "message") with
  | some m => if jsTruthy m then m else fallbackMessage errMsg
  | none => fallbackMessage errMsg

/-- JavaScript `error.response?.data || null`. -/
def detailsJson (respData : Option Json) : Json :=
  match respData with
  | some d => if jsTruthy d then d else Json.null
  | none => Json.null

/-- The error envelope built in the handler's catch block. -/
def catchEnvelope (errMsg : String) (respData : Option Json) : Json :=
  Json.obj [("status", Json.str "error"),
            ("message", errorMessageJson errMsg respData),
            ("details", detailsJson respData)]

/-- JavaScript `s.toLowerCase()` (ASCII fragment, which covers this feed's
city names): lowercase every character.  Defined by a structural map over
the character list. -/
def strToLower (s : String) : String :=
  String.mk (s.data.map Char.toLower)

/-- The pattern `pat` occurs as a contiguous segment of the character list (JavaScript
`String.prototype.includes`, which is substring containment). -/
def listContainsSeg (pat : List Char) : List Char → Bool
  | [] => pat.isEmpty
  | c :: cs => pat.isPrefixOf (c :: cs) || listContainsSeg pat cs

/-- JavaScript `s.includes(sub)`. -/
def strIncludes (s sub : String) : Bool :=
  listContainsSeg sub.toList s.toList

/-- Lines 301–304 of the source: lowercase the partial name and keep the
cities whose lowercased form contains it. -/
def matchedCitiesJs (partialName : String) (cities : List String) : List String :=
  let partialNameLower := strToLower partialName
  cities.filter (fun city => strIncludes (strToLower city) partialNameLower)

/-- All elements are JSON strings (the JS callback `city.toLowerCase()`
throws on any non-string element). -/
def asStrings : List Json → Option (List String)
  | [] => some []
  | Json.str s :: rest => (asStrings rest).map (fun l => s :: l)
  | _ :: _ => none

/-- JavaScript `.length` of a JSON value as a JSON value: defined for arrays
and strings, for objects it is the `length` property if any; `none` models
`undefined` (a key with an `undefined` value is dropped by
`JSON.stringify`). -/
def jsLength : Json → Option Json
  | Json.arr xs => some (Json.num xs.length)
  | Json.str s => some (Json.num s.length)
  | Json.obj fields => (fields.find? (fun p => p.1 == "length")).map (fun p => p.2)
  | _ => none

/-- Request `GET /api/content/entity_types/` followed by the feed id. -/
def entityTypesRequest (cfg : Config) : HttpRequest :=
  ⟨HttpMethod.get, "/api/content/entity_types/" ++ cfg.FEED_ID, [], none⟩

/-- Request `GET /api/content/entity_values/` followed by the feed id, with
an optional `entity_type` query parameter (axios drops `undefined` params). -/
def entityValuesRequest (cfg : Config) (entityType : Option String) : HttpRequest :=
  ⟨HttpMethod.get, "/api/content/entity_values/" ++ cfg.FEED_ID,
   (match entityType with
    | some t => [("entity_type", t)]
    | none => []), none⟩

/-- Body of the `search_by_report_type` POST. -/
def searchByReportTypeBody (cfg : Config) (args : ToolArgs) : Json :=
  Json.obj [("feed_id", feedIdJson cfg),
            ("page_num", Json.num (jsOrInt args.page_num 0)),
            ("page_size", Json.num (jsOrInt args.page_size 10)),
            ("entity_details", Json.arr
              [Json.obj ([("entity_type", Json.str "Report")] ++
                optField "entity_value" (args.report_type.map Json.str))])]

def searchByReportTypeRequest (cfg : Config) (args : ToolArgs) : HttpRequest :=
  ⟨HttpMethod.post, "/api/content/feed", [], some (searchByReportTypeBody cfg args)⟩

/-- Body of the `search_by_city` POST. -/
def searchByCityBody (cfg : Config) (args : ToolArgs) : Json :=
  Json.obj [("feed_id", feedIdJson cfg),
            ("page_num", Json.num (jsOrInt args.page_num 0)),
            ("page_size", Json.num (jsOrInt args.page_size 10)),
            ("entity_details", Json.arr
              [Json.obj ([("entity_type", Json.str "city")] ++
                optField "entity_value" (args.city_name.map Json.str))])]

def searchByCityRequest (cfg : Config) (args : ToolArgs) : HttpRequest :=
  ⟨HttpMethod.post, "/api/content/feed", [], some (searchByCityBody cfg args)⟩

/-- Body of the `search_reports_by_date_range` POST. -/
def dateRangeBody (cfg : Config) (args : ToolArgs) : Json :=
  Json.obj ([("feed_id", feedIdJson cfg)] ++
            optField "published_date_from" (args.start_date.map Json.str) ++
            optField "published_date_to" (args.end_date.map Json.str) ++
            [("page_num", Json.num (jsOrInt args.page_num 0)),
             ("page_size", Json.num (jsOrInt args.page_size 10))])

def dateRangeRequest (cfg : Config) (args : ToolArgs) : HttpRequest :=
  ⟨HttpMethod.post, "/api/content/feed", [], some (dateRangeBody cfg args)⟩

/-- Body of the `advanced_content_search` POST: every caller field is passed
through verbatim (`undefined` fields dropped by `JSON.stringify`). -/
def advancedSearchBody (cfg : Config) (args : ToolArgs) : Json :=
  Json.obj ([("feed_id", feedIdJson cfg)] ++
            optField "published_date_from" (args.published_date_from.map Json.str) ++
            optField "published_date_to" (args.published_date_to.map Json.str) ++
            optField "page_num" (args.page_num.map Json.num) ++
            optField "page_size" (args.page_size.map Json.num) ++
            optField "entity_details" (args.entity_details.map
              (fun l => Json.arr (l.map EntityDetail.toJson))))

def advancedSearchRequest (cfg : Config) (args : ToolArgs) : HttpRequest :=
  ⟨HttpMethod.post, "/api/content/feed", [], some (advancedSearchBody cfg args)⟩

/-- Body of the `get_latest_market_report_by_city` POST. -/
def latestMarketReportBody (cfg : Config) (args : ToolArgs) : Json :=
  Json.obj [("feed_id", feedIdJson cfg),
            ("page_num", Json.num 0),
            ("page_size", Json.num 1),
            ("entity_details", Json.arr
              [Json.obj ([("entity_type", Json.str "city")] ++
                optField "entity_value" (args.city_name.map Json.str)),
               Json.obj [("entity_type", Json.str "Report"),
                         ("entity_value", Json.str "Monthly Report: Major Cities")]])]

def latestMarketReportRequest (cfg : Config) (args : ToolArgs) : HttpRequest :=
  ⟨HttpMethod.post, "/api/content/feed", [], some (latestMarketReportBody cfg args)⟩

/-- Body of the `get_latest_price_analysis_by_city` POST (duplicated in the
source from the market-report case). -/
def latestPriceAnalysisBody (cfg : Config) (args : ToolArgs) : Json :=
  Json.obj [("feed_id", feedIdJson cfg),
            ("page_num", Json.num 0),
            ("page_size", Json.num 1),
            ("entity_details", Json.arr
              [Json.obj ([("entity_type", Json.str "city")] ++
                optField "entity_value" (args.city_name.map Json.str)),
               Json.obj [("entity_type", Json.str "Report"),
                         ("entity_value", Json.str "Monthly Report: Major Cities")]])]

def latestPriceAnalysisRequest (cfg : Config) (args : ToolArgs) : HttpRequest :=
  ⟨HttpMethod.post, "/api/content/feed", [], some (latestPriceAnalysisBody cfg args)⟩

def lookupCitiesNote : String :=
  "Use one of these exact city names with the search_by_city tool"

def reportTypesNote : String :=
  "Use one of these exact report types with search_by_report_type tool"

/-- The ten tool names of the catalog, in the order returned by the
`ListToolsRequestSchema` handler. -/
def toolNames : List String :=
  ["list_available_entity_types", "list_entity_values", "search_by_report_type",
   "lookup_cities", "search_by_city", "list_report_types",
   "search_reports_by_date_range", "advanced_content_search",
   "get_latest_market_report_by_city", "get_latest_price_analysis_by_city"]

/-- The `CallToolRequestSchema` handler (lines 266–476 of the source): the
switch over the tool name, with the surrounding try/catch.  `http` is the
axios client; a rejected call is routed through the catch block, which
builds the uniform error envelope.  The default case throws
`Error("Unknown tool: " + name)`, likewise caught. -/
def invoke (cfg : Config) (toolName : String) (args : ToolArgs)
    (http : HttpRequest → AxiosOutcome) : ToolOutcome :=
  if toolName = "list_available_entity_types" then
    let req := entityTypesRequest cfg
    match http req with
    | AxiosOutcome.success data => ToolOutcome.result [req] data
    | AxiosOutcome.failure msg rdata => ToolOutcome.result [req] (catchEnvelope msg rdata)
  else if toolName = "list_entity_values" then
    let req := entityValuesRequest cfg args.entity_type
    match http req with
    | AxiosOutcome.success data => ToolOutcome.result [req] data
    | AxiosOutcome.failure msg rdata => ToolOutcome.result [req] (catchEnvelope msg rdata)
  else if toolName = "lookup_cities" then
    let req := entityValuesRequest cfg (some "city")
    match http req with
    | AxiosOutcome.failure msg rdata => ToolOutcome.result [req] (catchEnvelope msg rdata)
    | AxiosOutcome.success data =>
      match args.partial_name with
      | none => ToolOutcome.runtimeError [req]
      | some partialName =>
        match jsonLookup data "unique_entity_value" with
        | some (Json.arr elems) =>
          match asStrings elems with
          | some cities =>
            let matchedCities := matchedCitiesJs partialName cities
            ToolOutcome.result [req]
              (Json.obj [("status", Json.str "success"),
                         ("matched_cities", Json.arr (matchedCities.map Json.str)),
                         ("count", Json.num matchedCities.length),
                         ("usage_note", Json.str lookupCitiesNote)])
          | none => ToolOutcome.runtimeError [req]
        | _ => ToolOutcome.runtimeError [req]
  else if toolName = "search_by_report_type" then
    let req := searchByReportTypeRequest cfg args
    match http req with
    | AxiosOutcome.success data => ToolOutcome.result [req] data
    | AxiosOutcome.failure msg rdata => ToolOutcome.result [req] (catchEnvelope msg rdata)
  else if toolName = "search_by_city" then
    let req := searchByCityRequest cfg args
    match http req with
    | AxiosOutcome.success data => ToolOutcome.result [req] data
    | AxiosOutcome.failure msg rdata => ToolOutcome.result [req] (catchEnvelope msg rdata)
  else if toolName = "search_reports_by_date_range" then
    let req := dateRangeRequest cfg args
    match http req with
    | AxiosOutcome.success data => ToolOutcome.result [req] data
    | AxiosOutcome.failure msg rdata => ToolOutcome.result [req] (catchEnvelope msg rdata)
  else if toolName = "advanced_content_search" then
    let req := advancedSearchRequest cfg args
    match http req with
    | AxiosOutcome.success data => ToolOutcome.result [req] data
    | AxiosOutcome.failure msg rdata => ToolOutcome.result [req] (catchEnvelope msg rdata)
  else if toolName = "get_latest_market_report_by_city" then
    let req := latestMarketReportRequest cfg args
    match http req with
    | AxiosOutcome.success data => ToolOutcome.result [req] data
    | AxiosOutcome.failure msg rdata => ToolOutcome.result [req] (catchEnvelope msg rdata)
  else if toolName = "get_latest_price_analysis_by_city" then
    let req := latestPriceAnalysisRequest cfg args
    match http req with
    | AxiosOutcome.success data => ToolOutcome.result [req] data
    | AxiosOutcome.failure msg rdata => ToolOutcome.result [req] (catchEnvelope msg rdata)
  else if toolName = "list_report_types" then
    let req := entityValuesRequest cfg (some "Report")
    match http req with
    | AxiosOutcome.failure msg rdata => ToolOutcome.result [req] (catchEnvelope msg rdata)
    | AxiosOutcome.success data =>
      match jsonLookup data "unique_entity_value" with
      | none => ToolOutcome.runtimeError [req]
      | some Json.null => ToolOutcome.runtimeError [req]
      | some v =>
        ToolOutcome.result [req]
          (Json.obj ([("status", Json.str "success"), ("report_types", v)] ++
                     optField "count" (jsLength v) ++
                     [("usage_note", Json.str reportTypesNote)]))
  else
    ToolOutcome.result [] (catchEnvelope ("Unknown tool: " ++ toolName) none)



/-- Helper: the default-case throw message is never the empty string. -/
theorem unknown_tool_message_ne_empty (t : String) : ("Unknown tool: " ++ t) ≠ "" := by
  intro h
  have h2 := congrArg String.length h
  rw [String.length_append] at h2
  have h3 : ("Unknown tool: " : String).length = 14 := rfl
  have h4 : ("" : String).length = 0 := rfl
  omega

/-- Helper: a list of JSON strings converts back to the underlying
strings. -/
theorem asStrings_map_str (l : List String) : asStrings (l.map Json.str) = some l := by
  induction l with
  | nil => rfl
  | cons s rest ih => simp [asStrings, ih]

/-- Helper: the executable substring test agrees with list-infix
containment. -/
theorem listContainsSeg_iff (pat s : List Char) :
    listContainsSeg pat s = true ↔ pat <:+: s := by
  induction s with
  | nil => simp [listContainsSeg, List.infix_nil, List.isEmpty_iff]
  | cons c cs ih =>
    simp [listContainsSeg, List.infix_cons_iff, ih, Bool.or_eq_true,
      List.isPrefixOf_iff_prefix]

/-- C1: for every invocation whose tool name is not one of the ten catalog
tool names, `invoke` returns an envelope with status "error" and message
exactly "Unknown tool: <name>", and performs no outbound HTTP call (the call
trace is empty). -/
theorem unknown_tool_returns_error_envelope (cfg : Config) (toolName : String) (args : ToolArgs)
    (http : HttpRequest → AxiosOutcome) (h : toolName ∉ toolNames) :
    invoke cfg toolName args http =
      ToolOutcome.result []
        (Json.obj [("status", Json.str "error"),
                   ("message", Json.str ("Unknown tool: " ++ toolName)),
                   ("details", Json.null)]) := by
  simp only [toolNames, List.mem_cons, List.not_mem_nil, or_false, not_or] at h
  obtain ⟨h1, h2, h3, h4, h5, h6, h7, h8, h9, h10⟩ := h
  simp only [invoke, if_neg h1, if_neg h2, if_neg h3, if_neg h4, if_neg h5, if_neg h6,
    if_neg h7, if_neg h8, if_neg h9, if_neg h10, catchEnvelope, errorMessageJson,
    detailsJson, Option.none_bind, fallbackMessage,
    if_neg (unknown_tool_message_ne_empty toolName)]

/-- Witness for C1 at the concrete unknown name "frobnicate". -/
theorem unknown_tool_returns_error_envelope_witness :
    ("frobnicate" ∉ toolNames) ∧
    invoke {} "frobnicate" {} (fun _ => AxiosOutcome.success Json.null) =
      ToolOutcome.result []
        (Json.obj [("status", Json.str "error"),
                   ("message", Json.str ("Unknown tool: " ++ "frobnicate")),
                   ("details", Json.null)]) :=
  ⟨by decide, unknown_tool_returns_error_envelope {} "frobnicate" {} _ (by decide)⟩

/-- C2: for every partial name and every remote unique_entity_value list of
city strings, `lookup_cities` returns exactly the cities whose lowercased
form contains the lowercased partial name as a substring, in the original
list order, wrapped as status/matched_cities/count/usage_note with
count the length of the matched list. -/
theorem lookup_cities_filters_case_insensitive (cfg : Config) (p : String) (remote : List String)
    (args : ToolArgs) (http : HttpRequest → AxiosOutcome)
    (hp : args.partial_name = some p)
    (hh : http (entityValuesRequest cfg (some "city")) =
      AxiosOutcome.success (Json.obj [("unique_entity_value", Json.arr (remote.map Json.str))])) :
    invoke cfg "lookup_cities" args http =
      ToolOutcome.result [entityValuesRequest cfg (some "city")]
        (Json.obj [("status", Json.str "success"),
                   ("matched_cities", Json.arr ((matchedCitiesJs p remote).map Json.str)),
                   ("count", Json.num (matchedCitiesJs p remote).length),
                   ("usage_note", Json.str lookupCitiesNote)]) ∧
    matchedCitiesJs p remote =
      remote.filter (fun city => decide ((strToLower p).toList <:+: (strToLower city).toList)) := by
  constructor
  · simp only [invoke]
    rw [hh, hp]
    simp [jsonLookup, asStrings_map_str, matchedCitiesJs]
  · simp only [matchedCitiesJs]
    apply List.filter_congr
    intro city _
    have hiff := listContainsSeg_iff ((strToLower p).toList) ((strToLower city).toList)
    show listContainsSeg ((strToLower p).toList) ((strToLower city).toList) =
      decide ((strToLower p).toList <:+: (strToLower city).toList)
    by_cases hP : (strToLower p).toList <:+: (strToLower city).toList
    · rw [hiff.mpr hP, decide_eq_true hP]
    · rw [decide_eq_false hP]
      rcases hB : listContainsSeg ((strToLower p).toList) ((strToLower city).toList) with _ | _
      · rfl
      · exact absurd (hiff.mp hB) hP


/-- Witness for C2: partial name "new" against a fixture returning
["New York", "Newark", "Boston"] matches ["New York", "Newark"] with
count 2. -/
theorem lookup_cities_filters_case_insensitive_witness :
    invoke {} "lookup_cities" {partial_name := some "new"}
      (fun _ => AxiosOutcome.success (Json.obj [("unique_entity_value",
        Json.arr [Json.str "New York", Json.str "Newark", Json.str "Boston"])])) =
      ToolOutcome.result [entityValuesRequest {} (some "city")]
        (Json.obj [("status", Json.str "success"),
                   ("matched_cities", Json.arr [Json.str "New York", Json.str "Newark"]),
                   ("count", Json.num 2),
                   ("usage_note", Json.str lookupCitiesNote)]) :=
  (lookup_cities_filters_case_insensitive {} "new" ["New York", "Newark", "Boston"] {partial_name := some "new"}
    (fun _ => AxiosOutcome.success (Json.obj [("unique_entity_value",
      Json.arr [Json.str "New York", Json.str "Newark", Json.str "Boston"])])) rfl rfl).1

/-- C3: for every city_name argument and any extra arguments supplied,
`get_latest_market_report_by_city` builds a POST to /api/content/feed whose
body has page_num 0, page_size 1 (regardless of any pagination argument),
and entity_details equal to the two-element list [city filter, fixed
Report filter "Monthly Report: Major Cities"]. -/
theorem latest_market_report_query_shape (cfg : Config) (args : ToolArgs) (city : String)
    (http : HttpRequest → AxiosOutcome) (hc : args.city_name = some city) :
    ToolOutcome.calls (invoke cfg "get_latest_market_report_by_city" args http) =
      [⟨HttpMethod.post, "/api/content/feed", [],
        some (Json.obj [("feed_id", feedIdJson cfg),
                        ("page_num", Json.num 0),
                        ("page_size", Json.num 1),
                        ("entity_details", Json.arr
                          [Json.obj [("entity_type", Json.str "city"),
                                     ("entity_value", Json.str city)],
                           Json.obj [("entity_type", Json.str "Report"),
                                     ("entity_value", Json.str "Monthly Report: Major Cities")]])])⟩] := by
  simp only [invoke]
  rcases hr : http (latestMarketReportRequest cfg args) with _ | _ <;>
    simp [hr, ToolOutcome.calls, latestMarketReportRequest, latestMarketReportBody, optField, hc]

/-- Witness for C3 at city "Miami" with extra pagination arguments
supplied (page_num 7, page_size 25), which are ignored. -/
theorem latest_market_report_query_shape_witness :
    ToolOutcome.calls (invoke {} "get_latest_market_report_by_city"
        {city_name := some "Miami", page_num := some 7, page_size := some 25}
        (fun _ => AxiosOutcome.success Json.null)) =
      [⟨HttpMethod.post, "/api/content/feed", [],
        some (Json.obj [("feed_id", feedIdJson {}),
                        ("page_num", Json.num 0),
                        ("page_size", Json.num 1),
                        ("entity_details", Json.arr
                          [Json.obj [("entity_type", Json.str "city"),
                                     ("entity_value", Json.str "Miami")],
                           Json.obj [("entity_type", Json.str "Report"),
                                     ("entity_value", Json.str "Monthly Report: Major Cities")]])])⟩] :=
  latest_market_report_query_shape {} {city_name := some "Miami", page_num := some 7, page_size := some 25} "Miami" _ rfl

/-- C4: for every city_name argument the outbound HTTP request (method,
path, and full body, including the fixed Report-type filter value) built by
`get_latest_price_analysis_by_city` is identical to the one built by
`get_latest_market_report_by_city` for the same arguments; consequently the
whole invocation result coincides for every HTTP oracle. -/
theorem price_analysis_query_identical_to_market_report (cfg : Config) (args : ToolArgs) :
    latestPriceAnalysisRequest cfg args = latestMarketReportRequest cfg args ∧
    ∀ http : HttpRequest → AxiosOutcome,
      invoke cfg "get_latest_price_analysis_by_city" args http =
      invoke cfg "get_latest_market_report_by_city" args http :=
  ⟨rfl, fun _ => rfl⟩

/-- C5: for every invocation of `search_by_city` with a city_name argument
and no page_num or page_size arguments, the outbound FeedQuery body has
page_num 0, page_size 10, and entity_details equal to the single city
filter. -/
theorem search_by_city_default_query_shape (cfg : Config) (args : ToolArgs) (city : String)
    (http : HttpRequest → AxiosOutcome) (hc : args.city_name = some city)
    (hpn : args.page_num = none) (hps : args.page_size = none) :
    ToolOutcome.calls (invoke cfg "search_by_city" args http) =
      [⟨HttpMethod.post, "/api/content/feed", [],
        some (Json.obj [("feed_id", feedIdJson cfg),
                        ("page_num", Json.num 0),
                        ("page_size", Json.num 10),
                        ("entity_details", Json.arr
                          [Json.obj [("entity_type", Json.str "city"),
                                     ("entity_value", Json.str city)]])])⟩] := by
  simp only [invoke]
  rcases hr : http (searchByCityRequest cfg args) with _ | _ <;>
    simp [hr, ToolOutcome.calls, searchByCityRequest, searchByCityBody, optField, jsOrInt,
      hc, hpn, hps]

/-- Witness for C5 at city "Austin" with no pagination arguments. -/
theorem search_by_city_default_query_shape_witness :
    ToolOutcome.calls (invoke {} "search_by_city" {city_name := some "Austin"}
        (fun _ => AxiosOutcome.success Json.null)) =
      [⟨HttpMethod.post, "/api/content/feed", [],
        some (Json.obj [("feed_id", feedIdJson {}),
                        ("page_num", Json.num 0),
                        ("page_size", Json.num 10),
                        ("entity_details", Json.arr
                          [Json.obj [("entity_type", Json.str "city"),
                                     ("entity_value", Json.str "Austin")]])])⟩] :=
  search_by_city_default_query_shape {} {city_name := some "Austin"} "Austin" _ rfl rfl rfl

/-- C6: `advanced_content_search` places the caller-supplied
published_date_from, published_date_to, page_num, page_size and
entity_details into the outbound FeedQuery body verbatim, with no
defaulting: the pagination values appear exactly as supplied, and each
optional field is present in the body exactly when it was supplied, with
the supplied value. -/
theorem advanced_search_verbatim_passthrough (cfg : Config) (args : ToolArgs) (pn ps : Int)
    (http : HttpRequest → AxiosOutcome)
    (hpn : args.page_num = some pn) (hps : args.page_size = some ps) :
    ToolOutcome.calls (invoke cfg "advanced_content_search" args http) =
      [advancedSearchRequest cfg args] ∧
    (advancedSearchRequest cfg args).method = HttpMethod.post ∧
    (advancedSearchRequest cfg args).path = "/api/content/feed" ∧
    (advancedSearchRequest cfg args).body = some (advancedSearchBody cfg args) ∧
    jsonLookup (advancedSearchBody cfg args) "page_num" = some (Json.num pn) ∧
    jsonLookup (advancedSearchBody cfg args) "page_size" = some (Json.num ps) ∧
    jsonLookup (advancedSearchBody cfg args) "published_date_from" =
      args.published_date_from.map Json.str ∧
    jsonLookup (advancedSearchBody cfg args) "published_date_to" =
      args.published_date_to.map Json.str ∧
    jsonLookup (advancedSearchBody cfg args) "entity_details" =
      args.entity_details.map (fun l => Json.arr (l.map EntityDetail.toJson)) := by
  refine ⟨?_, rfl, rfl, rfl, ?_, ?_, ?_, ?_, ?_⟩
  · simp only [invoke]
    rcases hr : http (advancedSearchRequest cfg args) with _ | _ <;>
      simp [hr, ToolOutcome.calls]
  all_goals
    rcases hdf : args.published_date_from with _ | df <;>
    rcases hdt : args.published_date_to with _ | dt <;>
    rcases hed : args.entity_details with _ | ed <;>
      simp [advancedSearchBody, jsonLookup, optField, hpn, hps, hdf, hdt, hed, List.find?]

/-- Witness for C6: page_num 2 and page_size 5 with no entity_details
produce a FeedQuery with entity_details (and dates) absent and the given
pagination verbatim. -/
theorem advanced_search_verbatim_passthrough_witness :
    ToolOutcome.calls (invoke {} "advanced_content_search"
        {page_num := some 2, page_size := some 5}
        (fun _ => AxiosOutcome.success Json.null)) =
      [advancedSearchRequest {} {page_num := some 2, page_size := some 5}] ∧
    (advancedSearchRequest {} {page_num := some 2, page_size := some 5}).method = HttpMethod.post ∧
    (advancedSearchRequest {} {page_num := some 2, page_size := some 5}).path = "/api/content/feed" ∧
    (advancedSearchRequest {} {page_num := some 2, page_size := some 5}).body =
      some (advancedSearchBody {} {page_num := some 2, page_size := some 5}) ∧
    jsonLookup (advancedSearchBody {} {page_num := some 2, page_size := some 5}) "page_num" =
      some (Json.num 2) ∧
    jsonLookup (advancedSearchBody {} {page_num := some 2, page_size := some 5}) "page_size" =
      some (Json.num 5) ∧
    jsonLookup (advancedSearchBody {} {page_num := some 2, page_size := some 5})
      "published_date_from" = (none : Option String).map Json.str ∧
    jsonLookup (advancedSearchBody {} {page_num := some 2, page_size := some 5})
      "published_date_to" = (none : Option String).map Json.str ∧
    jsonLookup (advancedSearchBody {} {page_num := some 2, page_size := some 5}) "entity_details" =
      (none : Option (List EntityDetail)).map (fun l => Json.arr (l.map EntityDetail.toJson)) :=
  advanced_search_verbatim_passthrough {} {page_num := some 2, page_size := some 5} 2 5 _ rfl rfl

/-- Helper: the catch block's envelope when the remote error body is
present and carries a truthy message field. -/
theorem catchEnvelope_with_message (msg : String) (d m : Json)
    (hm : jsonLookup d "message" = some m) (hT : jsTruthy m = true) :
    catchEnvelope msg (some d) =
      Json.obj [("status", Json.str "error"), ("message", m), ("details", d)] := by
  have hobj : jsTruthy d = true := by
    cases d <;> simp [jsonLookup, jsTruthy] at hm ⊢
  simp [catchEnvelope, errorMessageJson, detailsJson, hm, hT, hobj]

/-- Helper: the catch block's envelope when no remote body is available. -/
theorem catchEnvelope_no_body (msg : String) (hmsg : msg ≠ "") :
    catchEnvelope msg none =
      Json.obj [("status", Json.str "error"), ("message", Json.str msg),
                ("details", Json.null)] := by
  simp [catchEnvelope, errorMessageJson, detailsJson, fallbackMessage, hmsg]

/-- C7: for every tool of the catalog, a remote-call failure whose response
body carries a (truthy) message field yields an envelope with status
"error", message equal to that remote message and details equal to the
remote error body; a failure with no response body yields the
transport-level error message and null details. -/
theorem remote_failure_error_envelope (cfg : Config) (toolName : String) (args : ToolArgs)
    (msg : String) (d m : Json)
    (hTool : toolName ∈ toolNames) (hmsg : msg ≠ "")
    (hm : jsonLookup d "message" = some m) (hT : jsTruthy m = true) :
    ToolOutcome.content? (invoke cfg toolName args
        (fun _ => AxiosOutcome.failure msg (some d))) =
      some (Json.obj [("status", Json.str "error"), ("message", m), ("details", d)]) ∧
    ToolOutcome.content? (invoke cfg toolName args
        (fun _ => AxiosOutcome.failure msg none)) =
      some (Json.obj [("status", Json.str "error"), ("message", Json.str msg),
                      ("details", Json.null)]) := by
  have e1 := catchEnvelope_with_message msg d m hm hT
  have e2 := catchEnvelope_no_body msg hmsg
  simp only [toolNames, List.mem_cons, List.not_mem_nil, or_false] at hTool
  rcases hTool with rfl | rfl | rfl | rfl | rfl | rfl | rfl | rfl | rfl | rfl <;>
    exact ⟨by simp [invoke, ToolOutcome.content?, e1],
           by simp [invoke, ToolOutcome.content?, e2]⟩

/-- Witness for C7: a simulated remote 500 whose body is
(message: "server error") yields exactly the envelope of the claim, and
with no body the transport message is used with null details. -/
theorem remote_failure_error_envelope_witness :
    ToolOutcome.content? (invoke {} "list_available_entity_types" {}
        (fun _ => AxiosOutcome.failure "Request failed with status code 500"
          (some (Json.obj [("message", Json.str "server error")])))) =
      some (Json.obj [("status", Json.str "error"),
                      ("message", Json.str "server error"),
                      ("details", Json.obj [("message", Json.str "server error")])]) ∧
    ToolOutcome.content? (invoke {} "list_available_entity_types" {}
        (fun _ => AxiosOutcome.failure "Request failed with status code 500" none)) =
      some (Json.obj [("status", Json.str "error"),
                      ("message", Json.str "Request failed with status code 500"),
                      ("details", Json.null)]) :=
  remote_failure_error_envelope {} "list_available_entity_types" {} "Request failed with status code 500"
    (Json.obj [("message", Json.str "server error")]) (Json.str "server error")
    (by decide) (by decide) rfl rfl

/-- C8: every successful remote JSON body for `list_available_entity_types`
is returned unchanged as the tool's payload (the serialized text is the
JSON serialization of exactly that body, so deserializing it yields the
remote body). -/
theorem entity_types_payload_identity (cfg : Config) (args : ToolArgs) (http : HttpRequest → AxiosOutcome)
    (body : Json) (hh : http (entityTypesRequest cfg) = AxiosOutcome.success body) :
    invoke cfg "list_available_entity_types" args http =
      ToolOutcome.result [entityTypesRequest cfg] body := by
  simp [invoke, hh]

/-- Witness for C8 at a concrete entity-type body. -/
theorem entity_types_payload_identity_witness :
    invoke {} "list_available_entity_types" {}
      (fun _ => AxiosOutcome.success (Json.obj [("unique_entity_type",
        Json.arr [Json.str "Report", Json.str "city"])])) =
      ToolOutcome.result [entityTypesRequest {}]
        (Json.obj [("unique_entity_type", Json.arr [Json.str "Report", Json.str "city"])]) :=
  entity_types_payload_identity {} {} _ _ rfl

/-- C9 counterexample: an invocation of `advanced_content_search` with the
out-of-range caller value page_size 100 places 100 — outside the declared
[1,50] range — verbatim in the outbound FeedQuery body: nothing is clamped
or rejected, so the claim is false as stated. -/
theorem page_size_clamping_counterexample :
    ToolOutcome.calls (invoke {} "advanced_content_search"
        {page_num := some 0, page_size := some 100}
        (fun _ => AxiosOutcome.success Json.null)) =
      [⟨HttpMethod.post, "/api/content/feed", [],
        some (Json.obj [("feed_id", Json.num 292), ("page_num", Json.num 0),
                        ("page_size", Json.num 100)])⟩] ∧
    ¬((100 : Int) ≤ 50) := ⟨rfl, by decide⟩

/-- C9 amended: the caller-supplied page_size is not clamped or validated
to [1,50]; every nonzero value (in `search_by_report_type`, where falsy
values default to 10) and every supplied value (in
`advanced_content_search`) is placed in the outbound FeedQuery verbatim,
and the request is sent unchanged. -/
theorem page_size_passthrough_unclamped (cfg : Config) (args : ToolArgs) (ps : Int)
    (http : HttpRequest → AxiosOutcome)
    (hps : args.page_size = some ps) (h0 : ps ≠ 0) :
    jsonLookup (searchByReportTypeBody cfg args) "page_size" = some (Json.num ps) ∧
    jsonLookup (advancedSearchBody cfg args) "page_size" = some (Json.num ps) ∧
    ToolOutcome.calls (invoke cfg "search_by_report_type" args http) =
      [searchByReportTypeRequest cfg args] ∧
    ToolOutcome.calls (invoke cfg "advanced_content_search" args http) =
      [advancedSearchRequest cfg args] := by
  refine ⟨?_, ?_, ?_, ?_⟩
  · simp [searchByReportTypeBody, jsonLookup, List.find?, jsOrInt, hps, h0]
  · rcases hdf : args.published_date_from with _ | df <;>
    rcases hdt : args.published_date_to with _ | dt <;>
    rcases hpn : args.page_num with _ | pn <;>
      simp [advancedSearchBody, jsonLookup, optField, hps, hdf, hdt, hpn, List.find?]
  · simp only [invoke]
    rcases hr : http (searchByReportTypeRequest cfg args) with _ | _ <;>
      simp [hr, ToolOutcome.calls]
  · simp only [invoke]
    rcases hr : http (advancedSearchRequest cfg args) with _ | _ <;>
      simp [hr, ToolOutcome.calls]

/-- Witness for the amended C9 at the out-of-range value page_size 100. -/
theorem page_size_passthrough_unclamped_witness :
    jsonLookup (searchByReportTypeBody {}
        {report_type := some "Market Report", page_num := some 2, page_size := some 100})
      "page_size" = some (Json.num 100) ∧
    jsonLookup (advancedSearchBody {}
        {report_type := some "Market Report", page_num := some 2, page_size := some 100})
      "page_size" = some (Json.num 100) ∧
    ToolOutcome.calls (invoke {} "search_by_report_type"
        {report_type := some "Market Report", page_num := some 2, page_size := some 100}
        (fun _ => AxiosOutcome.success Json.null)) =
      [searchByReportTypeRequest {}
        {report_type := some "Market Report", page_num := some 2, page_size := some 100}] ∧
    ToolOutcome.calls (invoke {} "advanced_content_search"
        {report_type := some "Market Report", page_num := some 2, page_size := some 100}
        (fun _ => AxiosOutcome.success Json.null)) =
      [advancedSearchRequest {}
        {report_type := some "Market Report", page_num := some 2, page_size := some 100}] :=
  page_size_passthrough_unclamped {} {report_type := some "Market Report", page_num := some 2, page_size := some 100}
    100 _ rfl (by decide)

/-- C10: for `search_by_report_type`, `search_by_city` and
`search_reports_by_date_range`, pagination defaulting uses JavaScript `||`,
so it applies to every falsy argument value, not only absent ones:
supplying page_num 0 and page_size 0 is indistinguishable from omitting
them, and the resulting body carries the default page_size 10. -/
theorem falsy_pagination_defaulting (cfg : Config) (args : ToolArgs) (http : HttpRequest → AxiosOutcome) :
    (invoke cfg "search_by_report_type" {args with page_num := some 0, page_size := some 0} http =
      invoke cfg "search_by_report_type" {args with page_num := none, page_size := none} http) ∧
    (invoke cfg "search_by_city" {args with page_num := some 0, page_size := some 0} http =
      invoke cfg "search_by_city" {args with page_num := none, page_size := none} http) ∧
    (invoke cfg "search_reports_by_date_range"
        {args with page_num := some 0, page_size := some 0} http =
      invoke cfg "search_reports_by_date_range"
        {args with page_num := none, page_size := none} http) ∧
    (∀ rt : String,
      ToolOutcome.calls (invoke cfg "search_by_report_type"
        {args with report_type := some rt, page_num := some 0, page_size := some 0} http) =
      [⟨HttpMethod.post, "/api/content/feed", [],
        some (Json.obj [("feed_id", feedIdJson cfg),
                        ("page_num", Json.num 0),
                        ("page_size", Json.num 10),
                        ("entity_details", Json.arr
                          [Json.obj [("entity_type", Json.str "Report"),
                                     ("entity_value", Json.str rt)]])])⟩]) := by
  refine ⟨rfl, rfl, rfl, ?_⟩
  intro rt
  simp only [invoke]
  rcases hr : http (searchByReportTypeRequest cfg
      {args with report_type := some rt, page_num := some 0, page_size := some 0}) with _ | _ <;>
    simp [hr, ToolOutcome.calls, searchByReportTypeRequest, searchByReportTypeBody,
      optField, jsOrInt]

end RealEstateFeed
